import Mathlib

/-!
Verification development for the bed-probe subsystem of a Marlin-derived
3D-printer firmware (source file: src/Marlin/src/module/probe.cpp).

The probe code is shallowly embedded here: C++ floats are modelled as
rationals (the algorithms under study perform exact arithmetic on the
sampled values), configuration macros become parameters, hardware and
motion side effects become explicit action lists, and fallible paths are
made explicit.  Every definition is translated from the source; where a
definition instead follows the specification's words (for comparison with
the code, or because a macro is defined outside the embedded file) its
doc comment says so.
-/

namespace ProbeFw

/-!
### Probe::do_z_raise (probe.cpp lines 365-370)

Computes the destination handed to do_z_clearance: start from the raise
amount and subtract offset.z only when offset.z is negative.
-/

/-- Translation of the body of Probe::do_z_raise: the Z destination passed
to do_z_clearance as a function of the requested raise and offset.z. -/
def do_z_raise_dest (z_raise offset_z : ℚ) : ℚ :=
  if offset_z < 0 then z_raise - offset_z else z_raise

/-!
### The descent floor of Probe::run_z_probe (probe.cpp line 759)
-/

/-- Translation of the z_probe_low_point computation in Probe::run_z_probe.
The configured macro Z_PROBE_LOW_POINT is a parameter. -/
def z_probe_low_point (z_trusted : Bool) (offset_z low_point_cfg : ℚ) : ℚ :=
  if z_trusted then -offset_z + low_point_cfg else -10

/-!
### The try_to_probe lambda inside Probe::run_z_probe (lines 736-755)

It tares the probe (failure returns true), then fails when probe_down_to_z
reported no trigger or when the sanity check finds the trigger height
suspiciously high.
-/

/-- Translation of the try_to_probe lambda: returns true (failure) on tare
failure, on no trigger, or - when scheck is set - when current_position.z
exceeds -offset.z + clearance after the move. -/
def try_to_probe (tare_fail probe_fail : Bool) (current_z offset_z clearance : ℚ)
    (scheck : Bool) : Bool :=
  if tare_fail then true
  else probe_fail || (scheck && decide (current_z > -offset_z + clearance))

/-!
### The multi-sample phase of Probe::run_z_probe (lines 762-879)

The function has return type float; its documented contract is to return
the measured height or NAN on error.  We therefore model the returned
float as either a numeric rational or NaN.  Note that the statement
at line 805 is literally a C++ return-true from a float function, which
the language coerces to the float 1.0 - this is captured faithfully.
-/

/-- A C++ float result of run_z_probe: a numeric value or NaN. -/
inductive FloatVal where
  | num (q : ℚ)
  | nan
deriving DecidableEq

/-- Inputs of one iteration of the slow sample loop (lines 803-838):
whether the loop-head tare call fails, whether the try_to_probe call
fails (its internal tare, a missed trigger, or the sanity check), and the
sampled height on success. -/
structure SampleStep where
  tare_fail : Bool
  try_fail : Bool
  z : ℚ
deriving DecidableEq

/-- Translation of the slow sample loop body (lines 803-838), iterated over
the per-iteration inputs.  A loop-head tare failure executes a C++
return-true inside a float-returning function, i.e. the float 1.0
(FloatVal.num 1); a try_to_probe failure returns NAN; otherwise the
iteration contributes its sample. -/
def sample_loop : List SampleStep → Except FloatVal (List ℚ)
  | [] => .ok []
  | s :: rest =>
    if s.tare_fail then .error (.num 1)
    else if s.try_fail then .error .nan
    else
      match sample_loop rest with
      | .error v => .error v
      | .ok zs => .ok (s.z :: zs)

/-- Translation of Probe::run_z_probe for the TOTAL_PROBING == 2 build
(lines 762-775 and 862-869): an initial tare, a fast probe recording
first_probe_z, then one pass of the slow sample loop, then the weighted
average (z2 * 3.0 + first_probe_z * 2.0) * 0.2. -/
def run_z_probe_double (tare_fast_fail fast_try_fail : Bool) (first_probe_z : ℚ)
    (step : SampleStep) : FloatVal :=
  if tare_fast_fail then .nan
  else if fast_try_fail then .nan
  else
    match sample_loop [step] with
    | .error v => v
    | .ok _ => .num ((step.z * 3 + first_probe_z * 2) * (0.2 : ℚ))

/-!
### Probe::refresh_largest_sensorless_adj (lines 986-1001)

Resets largest_sensorless_adj to the sentinel -3, then raises it with
NOLESS to the per-tower adjustment of each latched max endstop.
-/

/-- The three max-endstop latch bits read from endstops.state(). -/
structure EndstopBits where
  x_max : Bool
  y_max : Bool
  z_max : Bool
deriving DecidableEq

/-- Translation of Probe::refresh_largest_sensorless_adj: start from the
sentinel -3 and apply NOLESS (raise to at least) with the adjustment of
each tower whose max endstop bit is latched. -/
def refresh_largest_sensorless_adj (es : EndstopBits) (a b c : ℚ) : ℚ :=
  let l0 : ℚ := -3
  let l1 := if es.x_max then max l0 a else l0
  let l2 := if es.y_max then max l1 b else l1
  if es.z_max then max l2 c else l2

/-- Modelled from the spec: the same update described as a fold of max over
the adjustments of the latched towers, seeded with the sentinel -3 (spec
section 4.4 step 5).  Used to compare the code's sequential update with
its specification. -/
def largest_adj_of_triggered (es : EndstopBits) (a b c : ℚ) : ℚ :=
  (((if es.x_max then [a] else []) ++ (if es.y_max then [b] else []) ++
    (if es.z_max then [c] else [])).foldl max (-3 : ℚ))

/-- Translation of the delta-sensorless sample correction at line 813 of
Probe::run_z_probe: the sampled height is current_position.z minus
largest_sensorless_adj. -/
def sensorless_sample_z (current_z largest_adj : ℚ) : ℚ :=
  current_z - largest_adj

/-!
### Probe::set_deployed (probe.cpp lines 518-582)

The deploy/stow state machine.  Configuration macros become record fields;
hardware and motion effects are recorded as an explicit action trace.  The
variants needing an XY-homing check (sled, Allen key) and the optional
preheat step are outside the claims and are not modelled.  The post-
actuation trigger reading is an input (the physical response of the
probe).  The return value is the C++ result (true means failure), the
updated state, and the action trace in program order.
-/

/-- Build configuration of Probe::set_deployed: probe variant class,
operator-pause feature, the stow-trigger self test, and the two clearance
macros Z_CLEARANCE_BETWEEN_PROBES and Z_CLEARANCE_DEPLOY_PROBE. -/
structure ProbeCfg where
  fixed_or_nozzle : Bool
  pause_before_deploy_stow : Bool
  triggered_when_stowed_test : Bool
  between_probes : ℚ
  deploy_clearance : ℚ
deriving DecidableEq

/-- Mutable machine state read and written by Probe::set_deployed:
endstops.z_probe_enabled (the logical deploy tracker), the live
PROBE_TRIGGERED() reading, and IsRunning(). -/
structure MachineState where
  z_probe_enabled : Bool
  probe_triggered : Bool
  is_running : Bool
deriving DecidableEq

/-- Observable effects of Probe::set_deployed, in program order. -/
inductive Action where
  | z_raise (amount : ℚ)
  | actuate (deploy : Bool)
  | disable_z_probe_early
  | serial_error
  | lcd_alert
  | stop_machine
  | move_back_xy
  | enable_z_probe (b : Bool)
deriving DecidableEq

/-- Translation of Probe::set_deployed.  Line 525: immediate success when
endstops.z_probe_enabled already equals the request.  Lines 527-537: the
Z raise by max of the two clearances, wanted unless the probe is
fix-mounted/nozzle without the operator-pause feature and the request is
a stow (the code sets z_raise_wanted = deploy in that build).  Lines
548-570: with the stowed-trigger self test, actuate only when the live
trigger equals the request (switching the probe endstop off early on a
stow), then re-check; an unchanged reading reports and alerts only when
IsRunning(), then stops and returns failure.  Without the self test the
actuation is unconditional.  Lines 579-581: return to the remembered XY,
enable or disable the probe endstop channel, and return success. -/
def set_deployed (cfg : ProbeCfg) (s : MachineState) (deploy trig_after : Bool) :
    Bool × MachineState × List Action :=
  if s.z_probe_enabled = deploy then (false, s, [])
  else
    let z_raise_wanted : Bool :=
      if cfg.fixed_or_nozzle && !cfg.pause_before_deploy_stow then deploy else true
    let raise_acts : List Action :=
      if z_raise_wanted then [.z_raise (max cfg.between_probes cfg.deploy_clearance)] else []
    if cfg.triggered_when_stowed_test then
      let do_act : Bool := s.probe_triggered == deploy
      let s1 : MachineState :=
        if do_act && !deploy then { s with z_probe_enabled := false } else s
      let act_acts : List Action :=
        if do_act then (if deploy then [] else [.disable_z_probe_early]) ++ [.actuate deploy]
        else []
      let trig2 : Bool := if do_act then trig_after else s.probe_triggered
      if trig2 = deploy then
        let err_acts : List Action :=
          if s.is_running then [.serial_error, .lcd_alert] else []
        (true, { s1 with probe_triggered := trig2 },
          raise_acts ++ act_acts ++ err_acts ++ [.stop_machine])
      else
        (false, { s1 with probe_triggered := trig2, z_probe_enabled := deploy },
          raise_acts ++ act_acts ++ [.move_back_xy, .enable_z_probe deploy])
    else
      (false, { s with probe_triggered := trig_after, z_probe_enabled := deploy },
        raise_acts ++ [.actuate deploy, .move_back_xy, .enable_z_probe deploy])

/-!
### The trimmed-mean aggregation of Probe::run_z_probe (lines 842-860)

For TOTAL_PROBING > 2 with EXTRA_PROBING > 0 the sorted sample array is
reduced by repeatedly discarding the endpoint farther from the median of
the original array, then averaged.  The list ps below is the sorted
probes[] array and e is EXTRA_PROBING.
-/

/-- Translation of the PHALF constant (line 844). -/
def phalf (n : ℕ) : ℕ := (n - 1) / 2

/-- Translation of the median computation (lines 845-846): the center
element, or for an even count the two center elements averaged with 0.5. -/
def median_of_sorted (ps : List ℚ) : ℚ :=
  let middle := ps.getD (phalf ps.length) 0
  if ps.length % 2 = 1 then middle
  else (middle + ps.getD (phalf ps.length + 1) 0) * (1/2)

/-- Translation of one iteration of the removal loop (lines 850-852): drop
the top endpoint when it is strictly farther from the median than the
bottom endpoint, otherwise drop the bottom endpoint. -/
def trim_step (ps : List ℚ) (m : ℚ) (r : ℕ × ℕ) : ℕ × ℕ :=
  if |ps.getD r.2 0 - m| > |ps.getD r.1 0 - m| then (r.1, r.2 - 1) else (r.1 + 1, r.2)

/-- The removal loop run k times from (min_avg_idx, max_avg_idx) =
(0, TOTAL_PROBING - 1) (lines 849-852). -/
def trim_range (ps : List ℚ) (m : ℚ) : ℕ → ℕ × ℕ
  | 0 => (0, ps.length - 1)
  | k + 1 => trim_step ps m (trim_range ps m k)

/-- Sum of probes[lo..hi] (the LOOP_S_LE_N accumulation, lines 855-856). -/
def range_sum (ps : List ℚ) (lo hi : ℕ) : ℚ :=
  ((List.range (hi + 1 - lo)).map fun k => ps.getD (lo + k) 0).sum

/-- Translation of the EXTRA_PROBING > 0 aggregation (lines 842-860): trim
e times, sum the kept range, and multiply by RECIPROCAL(MULTIPLE_PROBING).
MULTIPLE_PROBING is defined outside the embedded file; modelled from the
spec as TOTAL_PROBING - EXTRA_PROBING (the number of kept samples). -/
def aggregate_trimmed (ps : List ℚ) (e : ℕ) : ℚ :=
  let m := median_of_sorted ps
  let r := trim_range ps m e
  range_sum ps r.1 r.2 * (1 / ((ps.length - e : ℕ) : ℚ))

/-- The endpoint the code discards at step k of the removal loop: the top
endpoint exactly when it is strictly farther from m. -/
def dropped_idx (ps : List ℚ) (m : ℚ) (k : ℕ) : ℕ :=
  let r := trim_range ps m k
  if |ps.getD r.2 0 - m| > |ps.getD r.1 0 - m| then r.2 else r.1

/-- Modelled from the spec (claim C1's wording): a removal step whose tie
break prefers dropping the higher-indexed endpoint. -/
def trim_step_claim (ps : List ℚ) (m : ℚ) (r : ℕ × ℕ) : ℕ × ℕ :=
  if |ps.getD r.2 0 - m| ≥ |ps.getD r.1 0 - m| then (r.1, r.2 - 1) else (r.1 + 1, r.2)

/-- Modelled from the spec (claim C1's wording): the removal loop with the
higher-index tie break. -/
def trim_range_claim (ps : List ℚ) (m : ℚ) : ℕ → ℕ × ℕ
  | 0 => (0, ps.length - 1)
  | k + 1 => trim_step_claim ps m (trim_range_claim ps m k)

/-- Modelled from the spec (claim C1's wording): the aggregation built on
the higher-index tie break. -/
def aggregate_trimmed_claim (ps : List ℚ) (e : ℕ) : ℚ :=
  let m := median_of_sorted ps
  let r := trim_range_claim ps m e
  range_sum ps r.1 r.2 * (1 / ((ps.length - e : ℕ) : ℚ))

/-- Modelled from the spec: the median described as the center element for
an odd count or the mean of the two center elements for an even count. -/
def median_center (ps : List ℚ) : ℚ :=
  if ps.length % 2 = 1 then ps.getD (ps.length / 2) 0
  else (ps.getD (ps.length / 2 - 1) 0 + ps.getD (ps.length / 2) 0) * (1/2)

/-- The sorted sample array of the spec's scenario S3, scaled exactly:
0.05, 0.09, 0.10, 0.11, 0.40. -/
def s3_samples : List ℚ := [1/20, 9/100, 1/10, 11/100, 2/5]

/-!
## Theorems
-/

/-- Claim C2: in run_z_probe with total_samples == 2 and no tare or probe
failure, the returned height is the weighted average
(slow * 3 + fast * 2) / 5 of the slow and fast samples, for every pair of
sample values. -/
theorem C2_double_probe_weighting (fast_z slow_z : ℚ) :
    run_z_probe_double false false fast_z ⟨false, false, slow_z⟩ =
      .num ((slow_z * 3 + fast_z * 2) / 5) := by
  have h : (slow_z * 3 + fast_z * 2) * (0.2 : ℚ) = (slow_z * 3 + fast_z * 2) / 5 := by
    rw [show (0.2 : ℚ) = 1 / 5 by norm_num]
    ring
  simp [run_z_probe_double, sample_loop, h]

/-- Claim C3 (code bug): when the loop-head tare call fails inside the slow
sample loop, run_z_probe executes a C++ return-true inside a function whose
return type is float, so the caller receives the float 1.0 rather than the
NaN promised by the function's own doc comment and by the claim.  Evaluated
here at the failing input for the double-probe build. -/
theorem C3_tare_failure_returns_one :
    sample_loop [⟨true, false, 0⟩] = .error (.num 1) ∧
    run_z_probe_double false false 0 ⟨true, false, 0⟩ = .num 1 ∧
    FloatVal.num 1 ≠ FloatVal.nan := by
  refine ⟨rfl, rfl, by decide⟩

/-- Claim C5: with sanity checking enabled, the try_to_probe step reports
failure whenever probe_down_to_z reported no trigger or the post-trigger
position exceeds -offset.z + clearance; and when the tare succeeds the
failure report is exactly equivalent to that disjunction, so the threshold
is exactly -offset.z + clearance. -/
theorem C5_try_to_probe_sanity (tare_fail probe_fail : Bool)
    (current_z offset_z clearance : ℚ) :
    ((probe_fail = true ∨ current_z > -offset_z + clearance) →
      try_to_probe tare_fail probe_fail current_z offset_z clearance true = true) ∧
    (tare_fail = false →
      (try_to_probe tare_fail probe_fail current_z offset_z clearance true = true ↔
        (probe_fail = true ∨ current_z > -offset_z + clearance))) := by
  have hbase : try_to_probe false probe_fail current_z offset_z clearance true = true ↔
      (probe_fail = true ∨ current_z > -offset_z + clearance) := by
    simp [try_to_probe]
  constructor
  · intro h
    cases tare_fail
    · exact hbase.mpr h
    · simp [try_to_probe]
  · intro h
    subst h
    exact hbase

/-- Witness for C5 at a concrete input: a trigger at height 5 with
offset.z = -2 and clearance 1 exceeds the threshold 3 and is reported. -/
theorem C5_witness :
    ((false : Bool) = true ∨ (5 : ℚ) > -(-2 : ℚ) + 1) ∧
    try_to_probe false false 5 (-2) 1 true = true :=
  ⟨Or.inr (by norm_num),
   (C5_try_to_probe_sanity false false 5 (-2) 1).1 (Or.inr (by norm_num))⟩

/-- Claim C6: the descent floor of run_z_probe is -offset.z plus the
configured low point when the Z axis is trusted, and exactly -10.0 when it
is not. -/
theorem C6_descent_floor (offset_z low_point_cfg : ℚ) :
    z_probe_low_point true offset_z low_point_cfg = -offset_z + low_point_cfg ∧
    z_probe_low_point false offset_z low_point_cfg = -10 :=
  ⟨rfl, rfl⟩

/-- Claim C9: refresh_largest_sensorless_adj computes the fold of max over
the adjustments of the towers whose max endstop bits are latched, seeded
with the sentinel -3; with adjustments (0.1, 0.2, -0.05) and only the Y
tower latched it yields 0.2, and the sampled height is then
current_z - 0.2. -/
theorem C9_sensorless_adj (es : EndstopBits) (a b c : ℚ) :
    refresh_largest_sensorless_adj es a b c = largest_adj_of_triggered es a b c ∧
    refresh_largest_sensorless_adj ⟨false, true, false⟩ (0.1) (0.2) (-0.05) = 0.2 ∧
    ∀ current_z : ℚ,
      sensorless_sample_z current_z
        (refresh_largest_sensorless_adj ⟨false, true, false⟩ (0.1) (0.2) (-0.05)) =
        current_z - 0.2 := by
  have h : refresh_largest_sensorless_adj ⟨false, true, false⟩ (0.1) (0.2) (-0.05)
      = (0.2 : ℚ) := by
    simp only [refresh_largest_sensorless_adj, Bool.false_eq_true, if_false, if_true]
    rw [max_eq_right (by norm_num)]
  refine ⟨?_, h, fun cz => ?_⟩
  · rcases es with ⟨x, y, z⟩
    cases x <;> cases y <;> cases z <;>
      simp [refresh_largest_sensorless_adj, largest_adj_of_triggered]
  · rw [sensorless_sample_z, h]

/-- Claim C10: the clearance destination commanded by do_z_raise(r) is
r - offset.z exactly when offset.z is strictly negative, and exactly r when
offset.z is nonnegative. -/
theorem C10_z_raise_offset_contribution (r offset_z : ℚ) :
    (offset_z < 0 → do_z_raise_dest r offset_z = r - offset_z) ∧
    (0 ≤ offset_z → do_z_raise_dest r offset_z = r) := by
  refine ⟨fun h => ?_, fun h => ?_⟩
  · simp [do_z_raise_dest, h]
  · simp [do_z_raise_dest, not_lt.mpr h]

/-- Witness for C10 at concrete offsets -2 and 3. -/
theorem C10_witness :
    ((-2 : ℚ) < 0 ∧ do_z_raise_dest 5 (-2) = 5 - (-2)) ∧
    ((0 : ℚ) ≤ 3 ∧ do_z_raise_dest 5 3 = 5) :=
  ⟨⟨by norm_num, (C10_z_raise_offset_contribution 5 (-2)).1 (by norm_num)⟩,
   ⟨by norm_num, (C10_z_raise_offset_contribution 5 3).2 (by norm_num)⟩⟩

/-- Claim C8: deploy and stow are idempotent: a request equal to the current
deploy tracker (endstops.z_probe_enabled) returns success immediately with
no motion and no actuation, and after any successful set_deployed a repeat
of the same request is such a no-op, so two consecutive deploys (or stows)
are observationally one. -/
theorem C8_idempotent_deploy_stow :
    (∀ (cfg : ProbeCfg) (s : MachineState) (d t : Bool),
      s.z_probe_enabled = d → set_deployed cfg s d t = (false, s, [])) ∧
    (∀ (cfg : ProbeCfg) (s : MachineState) (d t t' : Bool),
      (set_deployed cfg s d t).1 = false →
      set_deployed cfg (set_deployed cfg s d t).2.1 d t' =
        (false, (set_deployed cfg s d t).2.1, [])) := by
  have h1 : ∀ (cfg : ProbeCfg) (s : MachineState) (d t : Bool),
      s.z_probe_enabled = d → set_deployed cfg s d t = (false, s, []) := by
    intro cfg s d t h
    simp [set_deployed, h]
  refine ⟨h1, fun cfg s d t t' hok => h1 _ _ _ _ ?_⟩
  rcases cfg with ⟨f, p, tw, bp, dc⟩
  rcases s with ⟨zpe, trig, run⟩
  cases zpe <;> cases d <;> cases f <;> cases p <;> cases tw <;> cases trig <;>
    cases t <;> cases run <;> simp_all [set_deployed]

/-- Witness for C8: an immediate no-op when already deployed, and a repeat
of a successful deploy acting as a no-op. -/
theorem C8_witness :
    ((⟨true, false, true⟩ : MachineState).z_probe_enabled = true ∧
      set_deployed ⟨false, false, false, 5, 10⟩ ⟨true, false, true⟩ true true =
        (false, ⟨true, false, true⟩, [])) ∧
    ((set_deployed ⟨false, false, false, 5, 10⟩ ⟨false, false, true⟩ true true).1 = false ∧
      set_deployed ⟨false, false, false, 5, 10⟩
          (set_deployed ⟨false, false, false, 5, 10⟩ ⟨false, false, true⟩ true true).2.1
          true false =
        (false,
         (set_deployed ⟨false, false, false, 5, 10⟩ ⟨false, false, true⟩ true true).2.1,
         [])) :=
  ⟨⟨rfl, C8_idempotent_deploy_stow.1 _ _ _ _ rfl⟩,
   ⟨by simp [set_deployed],
    C8_idempotent_deploy_stow.2 _ _ _ _ _ (by simp [set_deployed])⟩⟩

/-- Claim C7 (amended): with the stowed-trigger self test enabled, a
set_deployed call that actuates the probe re-checks the trigger; if the
reading is unchanged (still equal to the requested state) the call stops
fatally and returns failure, and it emits the Z-Probe failed report and the
UI alert exactly when the machine is in the Running state. -/
theorem C7_trigger_unchanged_failure (cfg : ProbeCfg) (s : MachineState) (d : Bool)
    (htw : cfg.triggered_when_stowed_test = true)
    (hne : s.z_probe_enabled ≠ d)
    (hact : s.probe_triggered = d) :
    (set_deployed cfg s d d).1 = true ∧
    Action.actuate d ∈ (set_deployed cfg s d d).2.2 ∧
    Action.stop_machine ∈ (set_deployed cfg s d d).2.2 ∧
    (Action.serial_error ∈ (set_deployed cfg s d d).2.2 ↔ s.is_running = true) ∧
    (Action.lcd_alert ∈ (set_deployed cfg s d d).2.2 ↔ s.is_running = true) := by
  rcases cfg with ⟨f, p, tw, bp, dc⟩
  rcases s with ⟨zpe, trig, run⟩
  simp only at htw hact
  subst htw
  subst hact
  cases trig <;> cases zpe <;> cases f <;> cases p <;> cases run <;>
    simp_all [set_deployed]

/-- Counterexample for C7 as stated: with the machine already stopped
(IsRunning false), an actuating deploy whose trigger reading is unchanged
still fails and stops, but does NOT emit the Z-Probe failed report or the
UI alert. -/
theorem C7_counterexample :
    (set_deployed ⟨false, false, true, 5, 10⟩ ⟨false, true, false⟩ true true).1 = true ∧
    Action.actuate true ∈
      (set_deployed ⟨false, false, true, 5, 10⟩ ⟨false, true, false⟩ true true).2.2 ∧
    Action.serial_error ∉
      (set_deployed ⟨false, false, true, 5, 10⟩ ⟨false, true, false⟩ true true).2.2 ∧
    Action.lcd_alert ∉
      (set_deployed ⟨false, false, true, 5, 10⟩ ⟨false, true, false⟩ true true).2.2 := by
  refine ⟨?_, ?_, ?_, ?_⟩ <;> simp [set_deployed]

/-- Witness for C7 (amended) at a concrete running machine. -/
theorem C7_witness :
    ((⟨false, false, true, 5, 10⟩ : ProbeCfg).triggered_when_stowed_test = true ∧
     (⟨false, true, true⟩ : MachineState).z_probe_enabled ≠ true ∧
     (⟨false, true, true⟩ : MachineState).probe_triggered = true) ∧
    ((set_deployed ⟨false, false, true, 5, 10⟩ ⟨false, true, true⟩ true true).1 = true ∧
     Action.actuate true ∈
       (set_deployed ⟨false, false, true, 5, 10⟩ ⟨false, true, true⟩ true true).2.2 ∧
     Action.stop_machine ∈
       (set_deployed ⟨false, false, true, 5, 10⟩ ⟨false, true, true⟩ true true).2.2 ∧
     (Action.serial_error ∈
        (set_deployed ⟨false, false, true, 5, 10⟩ ⟨false, true, true⟩ true true).2.2 ↔
       (⟨false, true, true⟩ : MachineState).is_running = true) ∧
     (Action.lcd_alert ∈
        (set_deployed ⟨false, false, true, 5, 10⟩ ⟨false, true, true⟩ true true).2.2 ↔
       (⟨false, true, true⟩ : MachineState).is_running = true)) :=
  ⟨⟨rfl, by decide, rfl⟩,
   C7_trigger_unchanged_failure ⟨false, false, true, 5, 10⟩ ⟨false, true, true⟩ true
     rfl (by decide) rfl⟩

/-- Claim C4 (amended): every set_deployed call that is not a no-op raises Z
by max(between_probes, deploy_clearance) as its first action - before any
actuation - except exactly when the probe is fix-mounted/nozzle, the
operator-pause feature is disabled, AND the request is a stow; for those
variants the raise is skipped on stow but still performed on deploy. -/
theorem C4_z_raise_condition (cfg : ProbeCfg) (s : MachineState) (d t : Bool)
    (hne : s.z_probe_enabled ≠ d) :
    (Action.z_raise (max cfg.between_probes cfg.deploy_clearance) ∈
        (set_deployed cfg s d t).2.2 ↔
      ¬(cfg.fixed_or_nozzle = true ∧ cfg.pause_before_deploy_stow = false ∧ d = false)) ∧
    (¬(cfg.fixed_or_nozzle = true ∧ cfg.pause_before_deploy_stow = false ∧ d = false) →
      (set_deployed cfg s d t).2.2.head? =
        some (Action.z_raise (max cfg.between_probes cfg.deploy_clearance))) := by
  rcases cfg with ⟨f, p, tw, bp, dc⟩
  rcases s with ⟨zpe, trig, run⟩
  cases zpe <;> cases d <;> cases f <;> cases p <;> cases tw <;> cases trig <;>
    cases t <;> cases run <;> simp_all [set_deployed]

/-- Counterexample for C4 as stated: for a fix-mounted probe without the
operator-pause feature the raise IS performed when the request is deploy
and skipped when it is stow, so the skip does depend on the request. -/
theorem C4_counterexample :
    Action.z_raise (max (5 : ℚ) 10) ∈
      (set_deployed ⟨true, false, false, 5, 10⟩ ⟨false, false, true⟩ true true).2.2 ∧
    Action.z_raise (max (5 : ℚ) 10) ∉
      (set_deployed ⟨true, false, false, 5, 10⟩ ⟨true, false, true⟩ false false).2.2 := by
  constructor <;> simp [set_deployed]

/-- The removal loop of the trimmed aggregation keeps a well-formed range:
after k steps exactly k samples are dropped and the kept range stays
within the array. -/
theorem trim_range_invariant (ps : List ℚ) (m : ℚ) :
    ∀ k, k ≤ ps.length - 1 →
      (trim_range ps m k).1 + ((ps.length - 1) - (trim_range ps m k).2) = k ∧
      (trim_range ps m k).1 ≤ (trim_range ps m k).2 ∧
      (trim_range ps m k).2 ≤ ps.length - 1 := by
  intro k
  induction k with
  | zero =>
    intro _
    simp only [trim_range]
    omega
  | succ k ih =>
    intro hk
    obtain ⟨h1, h2, h3⟩ := ih (Nat.le_of_succ_le hk)
    have hlt : (trim_range ps m k).1 < (trim_range ps m k).2 := by omega
    have hstep : trim_range ps m (k + 1) = trim_step ps m (trim_range ps m k) := rfl
    rw [hstep]
    unfold trim_step
    split
    · dsimp only
      omega
    · dsimp only
      omega

/-- In a sorted list, getD is monotone over in-range indices. -/
theorem sorted_getD_le (ps : List ℚ) (hs : List.Sorted (· ≤ ·) ps)
    {i j : ℕ} (hij : i ≤ j) (hj : j < ps.length) :
    ps.getD i 0 ≤ ps.getD j 0 := by
  have hi : i < ps.length := lt_of_le_of_lt hij hj
  rw [List.getD_eq_get ps 0 hi, List.getD_eq_get ps 0 hj]
  exact hs.rel_get_of_le (Fin.mk_le_mk.mpr hij)

/-- A value between a and b is no farther from any reference point m than
the farther of a and b. -/
theorem abs_le_max_endpoints {a x b m : ℚ} (hax : a ≤ x) (hxb : x ≤ b) :
    |x - m| ≤ max |a - m| |b - m| := by
  rcases le_total x m with h | h
  · have h1 : |x - m| = m - x := by
      rw [abs_sub_comm]
      exact abs_of_nonneg (by linarith)
    have h3 : m - a ≤ |a - m| := by
      rw [abs_sub_comm]
      exact le_abs_self _
    have hx : |x - m| ≤ |a - m| := by linarith
    exact le_trans hx (le_max_left _ _)
  · have h1 : |x - m| = x - m := abs_of_nonneg (by linarith)
    have h3 : b - m ≤ |b - m| := le_abs_self _
    have hx : |x - m| ≤ |b - m| := by linarith
    exact le_trans hx (le_max_right _ _)

/-- The code's median of the sorted array equals the spec's description:
center element for an odd count, mean of the two centers for an even
count. -/
theorem median_eq_center (ps : List ℚ) (hn : 1 ≤ ps.length) :
    median_of_sorted ps = median_center ps := by
  simp only [median_of_sorted, median_center]
  by_cases hpar : ps.length % 2 = 1
  · rw [if_pos hpar, if_pos hpar]
    congr 1
    unfold phalf
    omega
  · rw [if_neg hpar, if_neg hpar]
    have hp1 : phalf ps.length = ps.length / 2 - 1 := by
      unfold phalf
      omega
    have hp2 : phalf ps.length + 1 = ps.length / 2 := by
      unfold phalf
      omega
    rw [hp2, hp1]

/-- Counterexample for C1 as stated: on the sorted samples [0, 1, 2] with
one extra sample the two endpoints are equally far from the median 1; the
code drops the LOWER-indexed endpoint and returns 3/2, while the claim's
higher-index tie break would drop the top endpoint and return 1/2. -/
theorem C1_counterexample :
    aggregate_trimmed [0, 1, 2] 1 = 3 / 2 ∧
    aggregate_trimmed_claim [0, 1, 2] 1 = 1 / 2 ∧
    aggregate_trimmed [0, 1, 2] 1 ≠ aggregate_trimmed_claim [0, 1, 2] 1 := by
  have hm : median_of_sorted [0, 1, 2] = 1 := by
    simp [median_of_sorted, phalf]
  have h0 : (([0, 1, 2] : List ℚ).getD 0 0) = 0 := rfl
  have h2 : (([0, 1, 2] : List ℚ).getD 2 0) = 2 := rfl
  have habs : |(([0, 1, 2] : List ℚ).getD 2 0) - 1| = |(([0, 1, 2] : List ℚ).getD 0 0) - 1| := by
    rw [h0, h2, show (2 : ℚ) - 1 = 1 by norm_num, show (0 : ℚ) - 1 = -1 by norm_num,
      abs_neg, abs_one]
  have hcond : ¬(|(([0, 1, 2] : List ℚ).getD 2 0) - 1| >
      |(([0, 1, 2] : List ℚ).getD 0 0) - 1|) := by
    rw [habs]
    exact lt_irrefl _
  have hcond2 : |(([0, 1, 2] : List ℚ).getD 2 0) - 1| ≥
      |(([0, 1, 2] : List ℚ).getD 0 0) - 1| := by
    rw [habs]
  have ht : trim_range [0, 1, 2] (1 : ℚ) 1 = (1, 2) := by
    have hr : trim_range [0, 1, 2] (1 : ℚ) 1 = trim_step [0, 1, 2] 1 (0, 2) := rfl
    rw [hr]
    simp only [trim_step]
    rw [if_neg hcond]
  have htc : trim_range_claim [0, 1, 2] (1 : ℚ) 1 = (0, 1) := by
    have hr : trim_range_claim [0, 1, 2] (1 : ℚ) 1 = trim_step_claim [0, 1, 2] 1 (0, 2) := rfl
    rw [hr]
    simp only [trim_step_claim]
    rw [if_pos hcond2]
  have hsum12 : range_sum [0, 1, 2] 1 2 = 3 := by
    show (1 : ℚ) + (2 + 0) = 3
    norm_num
  have hsum01 : range_sum [0, 1, 2] 0 1 = 1 := by
    show (0 : ℚ) + (1 + 0) = 1
    norm_num
  have ha : aggregate_trimmed [0, 1, 2] 1 = 3 / 2 := by
    simp only [aggregate_trimmed, hm, ht]
    norm_num [hsum12]
  have hb : aggregate_trimmed_claim [0, 1, 2] 1 = 1 / 2 := by
    simp only [aggregate_trimmed_claim, hm, htc]
    norm_num [hsum01]
  refine ⟨ha, hb, ?_⟩
  rw [ha, hb]
  norm_num

/-- Claim C1 (amended): for a sorted sample array with extra_samples below
the total count, the aggregation computes the median of the original array
(center element when odd, mean of the two centers when even); it drops
exactly extra_samples samples, each an endpoint of the kept range whose
distance to that original median is maximal over the whole kept range,
with ties broken by dropping the LOWER-indexed endpoint (the higher index
is kept); and it returns the mean of the kept contiguous range. -/
theorem C1_trimmed_aggregation (ps : List ℚ) (e : ℕ)
    (hs : List.Sorted (· ≤ ·) ps) (he : e < ps.length) :
    median_of_sorted ps = median_center ps ∧
    (trim_range ps (median_of_sorted ps) e).1 +
      ((ps.length - 1) - (trim_range ps (median_of_sorted ps) e).2) = e ∧
    (∀ k, k < e →
      (∀ i, (trim_range ps (median_of_sorted ps) k).1 ≤ i →
        i ≤ (trim_range ps (median_of_sorted ps) k).2 →
        |ps.getD i 0 - median_of_sorted ps| ≤
          |ps.getD (dropped_idx ps (median_of_sorted ps) k) 0 - median_of_sorted ps|) ∧
      (|ps.getD (trim_range ps (median_of_sorted ps) k).2 0 - median_of_sorted ps| =
          |ps.getD (trim_range ps (median_of_sorted ps) k).1 0 - median_of_sorted ps| →
        dropped_idx ps (median_of_sorted ps) k =
          (trim_range ps (median_of_sorted ps) k).1 ∧
        trim_range ps (median_of_sorted ps) (k + 1) =
          ((trim_range ps (median_of_sorted ps) k).1 + 1,
            (trim_range ps (median_of_sorted ps) k).2))) ∧
    aggregate_trimmed ps e =
      range_sum ps (trim_range ps (median_of_sorted ps) e).1
          (trim_range ps (median_of_sorted ps) e).2 *
        (1 / (((trim_range ps (median_of_sorted ps) e).2 + 1 -
              (trim_range ps (median_of_sorted ps) e).1 : ℕ) : ℚ)) := by
  have hn : 1 ≤ ps.length := by omega
  set m := median_of_sorted ps with hm
  refine ⟨median_eq_center ps hn, (trim_range_invariant ps m e (by omega)).1, ?_, ?_⟩
  · intro k hk
    obtain ⟨h1, h2, h3⟩ := trim_range_invariant ps m k (by omega)
    have hlt : (trim_range ps m k).1 < (trim_range ps m k).2 := by omega
    constructor
    · intro i hlo hhi
      have hhi_len : (trim_range ps m k).2 < ps.length := by omega
      have hbound := @abs_le_max_endpoints _ _ _ m
        (sorted_getD_le ps hs hlo (by omega))
        (sorted_getD_le ps hs hhi hhi_len)
      simp only [dropped_idx]
      by_cases hgt : |ps.getD (trim_range ps m k).2 0 - m| >
          |ps.getD (trim_range ps m k).1 0 - m|
      · rw [if_pos hgt]
        exact le_trans hbound (max_le (le_of_lt hgt) le_rfl)
      · rw [if_neg hgt]
        exact le_trans hbound (max_le le_rfl (not_lt.mp hgt))
    · intro heq
      have hngt : ¬(|ps.getD (trim_range ps m k).2 0 - m| >
          |ps.getD (trim_range ps m k).1 0 - m|) := by
        rw [heq]
        exact lt_irrefl _
      refine ⟨?_, ?_⟩
      · simp only [dropped_idx]
        rw [if_neg hngt]
      · have hstep : trim_range ps m (k + 1) = trim_step ps m (trim_range ps m k) := rfl
        rw [hstep]
        simp only [trim_step]
        rw [if_neg hngt]
  · obtain ⟨h1, h2, h3⟩ := trim_range_invariant ps m e (by omega)
    have hcount : ((ps.length - e : ℕ) : ℚ) =
        (((trim_range ps m e).2 + 1 - (trim_range ps m e).1 : ℕ) : ℚ) := by
      congr 1
      omega
    simp only [aggregate_trimmed, ← hm]
    rw [hcount]

/-- Witness for C1 (amended) at the spec's S3 samples with one extra
sample. -/
theorem C1_witness :
    List.Sorted (· ≤ ·) s3_samples ∧ 1 < s3_samples.length ∧
    (median_of_sorted s3_samples = median_center s3_samples ∧
    (trim_range s3_samples (median_of_sorted s3_samples) 1).1 +
      ((s3_samples.length - 1) - (trim_range s3_samples (median_of_sorted s3_samples) 1).2) = 1 ∧
    (∀ k, k < 1 →
      (∀ i, (trim_range s3_samples (median_of_sorted s3_samples) k).1 ≤ i →
        i ≤ (trim_range s3_samples (median_of_sorted s3_samples) k).2 →
        |s3_samples.getD i 0 - median_of_sorted s3_samples| ≤
          |s3_samples.getD (dropped_idx s3_samples (median_of_sorted s3_samples) k) 0 -
            median_of_sorted s3_samples|) ∧
      (|s3_samples.getD (trim_range s3_samples (median_of_sorted s3_samples) k).2 0 -
          median_of_sorted s3_samples| =
          |s3_samples.getD (trim_range s3_samples (median_of_sorted s3_samples) k).1 0 -
            median_of_sorted s3_samples| →
        dropped_idx s3_samples (median_of_sorted s3_samples) k =
          (trim_range s3_samples (median_of_sorted s3_samples) k).1 ∧
        trim_range s3_samples (median_of_sorted s3_samples) (k + 1) =
          ((trim_range s3_samples (median_of_sorted s3_samples) k).1 + 1,
            (trim_range s3_samples (median_of_sorted s3_samples) k).2))) ∧
    aggregate_trimmed s3_samples 1 =
      range_sum s3_samples (trim_range s3_samples (median_of_sorted s3_samples) 1).1
          (trim_range s3_samples (median_of_sorted s3_samples) 1).2 *
        (1 / (((trim_range s3_samples (median_of_sorted s3_samples) 1).2 + 1 -
              (trim_range s3_samples (median_of_sorted s3_samples) 1).1 : ℕ) : ℚ))) := by
  have hs : List.Sorted (· ≤ ·) s3_samples := by
    norm_num [s3_samples, List.sorted_cons]
  have hlen : 1 < s3_samples.length := by
    norm_num [s3_samples]
  exact ⟨hs, hlen, C1_trimmed_aggregation s3_samples 1 hs hlen⟩

/-- Witness for C4 (amended) at a concrete deploy of a non-fix-mounted
probe. -/
theorem C4_witness :
    (⟨false, false, true⟩ : MachineState).z_probe_enabled ≠ true ∧
    ((Action.z_raise (max (5 : ℚ) 10) ∈
        (set_deployed ⟨false, false, false, 5, 10⟩ ⟨false, false, true⟩ true true).2.2 ↔
      ¬((false : Bool) = true ∧ (false : Bool) = false ∧ (true : Bool) = false)) ∧
     (¬((false : Bool) = true ∧ (false : Bool) = false ∧ (true : Bool) = false) →
      (set_deployed ⟨false, false, false, 5, 10⟩ ⟨false, false, true⟩ true true).2.2.head? =
        some (Action.z_raise (max (5 : ℚ) 10)))) :=
  ⟨by decide,
   C4_z_raise_condition ⟨false, false, false, 5, 10⟩ ⟨false, false, true⟩ true true
     (by decide)⟩

end ProbeFw
